import Mathlib

/-!
Verification development for the financial-visualizer calculation core.

The source is a TypeScript single-page app. We shallowly embed its pure
calculation layer over `ℚ` (JS numbers are IEEE doubles; the spec reasons
at the exact-arithmetic level, and we follow it, noting where this matters).
Fallible paths (a thrown `TypeError`, a `NaN` produced by `Number(...)` on
text outside the decimal fragment we model) are embedded as `Option`,
with `none` marking inputs outside the embedded total domain.
-/

set_option maxRecDepth 4000

/-- One fiscal period's financial facts, from the `Period` type of the source.
Optional fields of the TS type (`field?: number`) are embedded as `Option ℚ`
(`none` = absent), matching the source's `?? 0` reads. -/
structure Period where
  period : String
  revenue : ℚ
  cogs : ℚ
  opex : ℚ
  r_and_d : Option ℚ
  sga : Option ℚ
  interest_expense : Option ℚ
  tax_expense : Option ℚ
  net_income : ℚ
  operating_cash_flow : ℚ
  investing_cash_flow : ℚ
  financing_cash_flow : ℚ
  capex : Option ℚ
  total_assets : ℚ
  total_liabilities : ℚ
  shareholders_equity : ℚ
  deriving DecidableEq, Repr

/-- JS-style list indexing: `l[i]` is `undefined` (here `none`) for a
negative index or one past the end. -/
def getIdx? {α : Type} (l : List α) (i : Int) : Option α :=
  if i < 0 then none else l.get? i.toNat

/-- `yoy(a, b) = b === 0 ? 0 : (a - b) / b` from `computeKPIs`. -/
def yoy (a b : ℚ) : ℚ := if b = 0 then 0 else (a - b) / b

/-- `grossMargin` from `computeKPIs`. -/
def grossMargin (p : Period) : ℚ :=
  if p.revenue = 0 then 0 else (p.revenue - p.cogs) / p.revenue

/-- `opMargin` from `computeKPIs`. -/
def opMargin (p : Period) : ℚ :=
  if p.revenue = 0 then 0 else (p.revenue - p.cogs - p.opex) / p.revenue

/-- `netMargin` from `computeKPIs`. -/
def netMargin (p : Period) : ℚ :=
  if p.revenue = 0 then 0 else p.net_income / p.revenue

/-- `debtToEquity` from `computeKPIs`. -/
def debtToEquity (p : Period) : ℚ :=
  if p.shareholders_equity = 0 then 0
  else p.total_liabilities / p.shareholders_equity

/-- `assetTurnover` from `computeKPIs`. -/
def assetTurnover (p : Period) : ℚ :=
  if p.total_assets = 0 then 0 else p.revenue / p.total_assets

/-- `fcf(p) = p.operating_cash_flow - (p.capex ?? 0)` from `computeKPIs`. -/
def fcf (p : Period) : ℚ := p.operating_cash_flow - (p.capex.getD 0)

/-- A KPI entry `{ value, delta }`. -/
structure Metric where
  value : ℚ
  delta : ℚ
  deriving DecidableEq, Repr

/-- The KPI bundle returned by `computeKPIs`. -/
structure KPI where
  latestPeriod : String
  revenue : Metric
  grossMargin : Metric
  operatingMargin : Metric
  netMargin : Metric
  debtToEquity : Metric
  assetTurnover : Metric
  fcf : Metric
  deriving DecidableEq, Repr

/-- The record literal built at the end of `computeKPIs`, as a function of
the already-selected `latest` and `prior` periods. -/
def mkKPI (latest prior : Period) : KPI :=
  { latestPeriod := latest.period
    revenue := ⟨latest.revenue, yoy latest.revenue prior.revenue⟩
    grossMargin := ⟨grossMargin latest, yoy (grossMargin latest) (grossMargin prior)⟩
    operatingMargin := ⟨opMargin latest, yoy (opMargin latest) (opMargin prior)⟩
    netMargin := ⟨netMargin latest, yoy (netMargin latest) (netMargin prior)⟩
    debtToEquity := ⟨debtToEquity latest, yoy (debtToEquity latest) (debtToEquity prior)⟩
    assetTurnover := ⟨assetTurnover latest, yoy (assetTurnover latest) (assetTurnover prior)⟩
    fcf := ⟨fcf latest, yoy (fcf latest) (fcf prior)⟩ }

/-- `computeKPIs(data)`: `latest = data[data.length - 1]`,
`prior = data[data.length - 2] ?? latest`. On the empty sequence the source
dereferences `undefined` (`latest.period` throws a `TypeError`); we embed
that failure as `none`. -/
def computeKPIs (data : List Period) : Option KPI :=
  match getIdx? data ((data.length : Int) - 1) with
  | none => none
  | some latest =>
      let prior := (getIdx? data ((data.length : Int) - 2)).getD latest
      some (mkKPI latest prior)

/-- The eight assumption dials of the `Simulator` component. -/
structure Assumptions where
  revGrowth : ℚ
  cogsMult : ℚ
  opexMult : ℚ
  capexPct : ℚ
  wcPct : ℚ
  interestRate : ℚ
  taxRate : ℚ
  financingDelta : ℚ
  deriving DecidableEq, Repr

/-- All derived scenario quantities of the `Simulator` component. -/
structure ScenarioResult where
  revenue1 : ℚ
  cogs1 : ℚ
  opex1 : ℚ
  ebit1 : ℚ
  debt1 : ℚ
  interest1 : ℚ
  ebt1 : ℚ
  tax1 : ℚ
  netIncome1 : ℚ
  capex1 : ℚ
  deltaWC : ℚ
  ocf1 : ℚ
  fcf1 : ℚ
  finCF1 : ℚ
  netCash1 : ℚ
  equity1 : ℚ
  liabilities1 : ℚ
  assets1 : ℚ
  deriving DecidableEq, Repr

/-- The projection computed inside `Simulator` (source lines 618-644).
JS truthiness `base.revenue ? x : 0` is the `= 0` test over `ℚ`. -/
def project (base : Period) (a : Assumptions) : ScenarioResult :=
  let debt0 := base.total_liabilities
  let equity0 := base.shareholders_equity
  let cogsPctBase := if base.revenue = 0 then 0 else base.cogs / base.revenue
  let opexPctBase := if base.revenue = 0 then 0 else base.opex / base.revenue
  let revenue1 := base.revenue * (1 + a.revGrowth)
  let cogs1 := revenue1 * (cogsPctBase * a.cogsMult)
  let opex1 := revenue1 * (opexPctBase * a.opexMult)
  let ebit1 := revenue1 - cogs1 - opex1
  let debt1 := max 0 (debt0 + a.financingDelta)
  let interest1 := debt1 * a.interestRate
  let ebt1 := ebit1 - interest1
  let tax1 := (if ebt1 > 0 then ebt1 else 0) * a.taxRate
  let netIncome1 := ebt1 - tax1
  let capex1 := revenue1 * a.capexPct
  let deltaWC := a.wcPct * (revenue1 - base.revenue)
  let ocf1 := netIncome1 - deltaWC
  let fcf1 := ocf1 - capex1
  let finCF1 := a.financingDelta
  let netCash1 := fcf1 + finCF1
  let equity1 := equity0 + netIncome1
  let liabilities1 := debt1
  let assets1 := liabilities1 + equity1
  { revenue1, cogs1, opex1, ebit1, debt1, interest1, ebt1, tax1, netIncome1,
    capex1, deltaWC, ocf1, fcf1, finCF1, netCash1, equity1, liabilities1, assets1 }

/-- A `Period` with every numeric field `0` (used as a concrete test input). -/
def zeroPeriod : Period :=
  { period := "Z", revenue := 0, cogs := 0, opex := 0, r_and_d := none,
    sga := none, interest_expense := none, tax_expense := none,
    net_income := 0, operating_cash_flow := 0, investing_cash_flow := 0,
    financing_cash_flow := 0, capex := none, total_assets := 0,
    total_liabilities := 0, shareholders_equity := 0 }

/-- The identity-scenario assumption setting of claim C1: zero growth, unit
multipliers, zero financing delta (remaining dials at a neutral 0). -/
def simIdentity : Assumptions :=
  { revGrowth := 0, cogsMult := 1, opexMult := 1, capexPct := 0,
    wcPct := 0, interestRate := 0, taxRate := 0, financingDelta := 0 }

/-- A base period with zero revenue but nonzero COGS (C1 counterexample). -/
def c1Base : Period := { zeroPeriod with period := "B", cogs := 1 }

/-- The 2024 sample period of the source (`SAMPLE[3]`). -/
def base2024 : Period :=
  { period := "2024", revenue := 720, cogs := 330, opex := 180,
    r_and_d := some 52, sga := some 128, interest_expense := some 13,
    tax_expense := some 22, net_income := 140, operating_cash_flow := 190,
    investing_cash_flow := -80, financing_cash_flow := -35, capex := some 60,
    total_assets := 860, total_liabilities := 410, shareholders_equity := 450 }

lemma yoy_self (a : ℚ) : yoy a a = 0 := by
  unfold yoy
  split
  · rfl
  · rw [sub_self, zero_div]

lemma yoy_zero_right (a : ℚ) : yoy a 0 = 0 := by simp [yoy]

/-- C1 fails as stated: at a base period with `revenue = 0` and `cogs = 1`,
the identity scenario yields `cogs1 = 0 ≠ base.cogs`. -/
theorem C1_counterexample :
    ¬ ((project c1Base simIdentity).revenue1 = c1Base.revenue ∧
       (project c1Base simIdentity).cogs1 = c1Base.cogs ∧
       (project c1Base simIdentity).opex1 = c1Base.opex) := by
  intro h
  have h2 := h.2.1
  simp [project, c1Base, simIdentity, zeroPeriod] at h2

/-- C1 (amended): under revenueGrowth=0, cogsMultiplier=1, opexMultiplier=1,
financingDelta=0, `revenue1 = base.revenue` always holds, and whenever
`base.revenue ≠ 0` also `cogs1 = base.cogs` and `opex1 = base.opex`. -/
theorem C1_theorem (base : Period) (a : Assumptions)
    (hg : a.revGrowth = 0) (hc : a.cogsMult = 1) (ho : a.opexMult = 1)
    (hf : a.financingDelta = 0) :
    (project base a).revenue1 = base.revenue ∧
    (base.revenue ≠ 0 →
      (project base a).cogs1 = base.cogs ∧ (project base a).opex1 = base.opex) := by
  refine ⟨?_, ?_⟩
  · simp [project, hg]
  · intro hr
    constructor
    · simp only [project, hg, hc, ho]
      rw [if_neg hr]
      field_simp
    · simp only [project, hg, hc, ho]
      rw [if_neg hr]
      field_simp

/-- C1 witness: the amended theorem at the 2024 sample period and the
identity assumptions. -/
theorem C1_witness :
    (project base2024 simIdentity).revenue1 = base2024.revenue ∧
    (base2024.revenue ≠ 0 →
      (project base2024 simIdentity).cogs1 = base2024.cogs ∧
      (project base2024 simIdentity).opex1 = base2024.opex) :=
  C1_theorem base2024 simIdentity rfl rfl rfl rfl

/-- C2: for every base period and assumption setting inside the documented
slider ranges, the projected balance sheet balances:
`assets1 = liabilities1 + equity1` (it holds by construction). -/
theorem C2_theorem (base : Period) (a : Assumptions)
    (h1 : -(1/2 : ℚ) ≤ a.revGrowth) (h2 : a.revGrowth ≤ 1/2)
    (h3 : (1/2 : ℚ) ≤ a.cogsMult) (h4 : a.cogsMult ≤ 3/2)
    (h5 : (1/2 : ℚ) ≤ a.opexMult) (h6 : a.opexMult ≤ 3/2)
    (h7 : (0 : ℚ) ≤ a.capexPct) (h8 : a.capexPct ≤ 3/10)
    (h9 : -(1/2 : ℚ) ≤ a.wcPct) (h10 : a.wcPct ≤ 1/2)
    (h11 : (0 : ℚ) ≤ a.interestRate) (h12 : a.interestRate ≤ 3/10)
    (h13 : (0 : ℚ) ≤ a.taxRate) (h14 : a.taxRate ≤ 1/2)
    (h15 : -(500 : ℚ) ≤ a.financingDelta) (h16 : a.financingDelta ≤ 500) :
    (project base a).assets1 = (project base a).liabilities1 + (project base a).equity1 :=
  rfl

/-- C2 witness: the balance identity at the 2024 sample period and the
identity assumptions (which lie inside every documented range). -/
theorem C2_witness :
    (project base2024 simIdentity).assets1 =
      (project base2024 simIdentity).liabilities1 + (project base2024 simIdentity).equity1 :=
  C2_theorem base2024 simIdentity (by norm_num [simIdentity]) (by norm_num [simIdentity])
    (by norm_num [simIdentity]) (by norm_num [simIdentity]) (by norm_num [simIdentity])
    (by norm_num [simIdentity]) (by norm_num [simIdentity]) (by norm_num [simIdentity])
    (by norm_num [simIdentity]) (by norm_num [simIdentity]) (by norm_num [simIdentity])
    (by norm_num [simIdentity]) (by norm_num [simIdentity]) (by norm_num [simIdentity])
    (by norm_num [simIdentity]) (by norm_num [simIdentity])

/-- C4: when `revenue = 0`, the guarded ratios `grossMargin`,
`opMargin`, `netMargin` and `assetTurnover` all evaluate to 0. -/
theorem C4_theorem (p : Period) (h : p.revenue = 0) :
    grossMargin p = 0 ∧ opMargin p = 0 ∧ netMargin p = 0 ∧ assetTurnover p = 0 := by
  refine ⟨?_, ?_, ?_, ?_⟩
  · simp [grossMargin, h]
  · simp [opMargin, h]
  · simp [netMargin, h]
  · unfold assetTurnover
    split
    · rfl
    · rw [h, zero_div]

/-- C4 witness: the zero-revenue guarantee at the all-zero period. -/
theorem C4_witness :
    grossMargin zeroPeriod = 0 ∧ opMargin zeroPeriod = 0 ∧
    netMargin zeroPeriod = 0 ∧ assetTurnover zeroPeriod = 0 :=
  C4_theorem zeroPeriod rfl

/-- C6: on a one-element sequence, `computeKPIs` takes that element as
both latest and prior, and every year-over-year delta in the bundle is 0. -/
theorem C6_theorem (p : Period) :
    computeKPIs [p] = some (mkKPI p p) ∧
    (mkKPI p p).revenue.delta = 0 ∧
    (mkKPI p p).grossMargin.delta = 0 ∧
    (mkKPI p p).operatingMargin.delta = 0 ∧
    (mkKPI p p).netMargin.delta = 0 ∧
    (mkKPI p p).debtToEquity.delta = 0 ∧
    (mkKPI p p).assetTurnover.delta = 0 ∧
    (mkKPI p p).fcf.delta = 0 := by
  refine ⟨rfl, ?_, ?_, ?_, ?_, ?_, ?_, ?_⟩ <;>
    simp only [mkKPI] <;> exact yoy_self _

/-- C9: `computeKPIs` on the empty sequence fails (the source dereferences
`data[-1]`, i.e. `undefined`, and throws; the embedding returns `none`
instead of a bundle). -/
theorem C9_theorem : computeKPIs ([] : List Period) = none := rfl

/-- C3: for a sequence of length at least 2, every tracked metric's
year-over-year delta in the `computeKPIs` bundle is 0 whenever that
metric evaluates to 0 on the prior period, whatever its latest value. -/
theorem C3_theorem (ps : List Period) (pr : Period) (k : KPI)
    (h2 : 2 ≤ ps.length)
    (hpr : getIdx? ps ((ps.length : Int) - 2) = some pr)
    (hk : computeKPIs ps = some k) :
    (pr.revenue = 0 → k.revenue.delta = 0) ∧
    (grossMargin pr = 0 → k.grossMargin.delta = 0) ∧
    (opMargin pr = 0 → k.operatingMargin.delta = 0) ∧
    (netMargin pr = 0 → k.netMargin.delta = 0) ∧
    (debtToEquity pr = 0 → k.debtToEquity.delta = 0) ∧
    (assetTurnover pr = 0 → k.assetTurnover.delta = 0) ∧
    (fcf pr = 0 → k.fcf.delta = 0) := by
  cases hL : getIdx? ps ((ps.length : Int) - 1) with
  | none =>
      exfalso
      unfold getIdx? at hL
      rw [if_neg (by omega)] at hL
      have := List.get?_eq_none.mp hL
      omega
  | some latest =>
      unfold computeKPIs at hk
      rw [hL, hpr] at hk
      simp only [Option.getD_some] at hk
      injection hk with hk
      subst hk
      refine ⟨?_, ?_, ?_, ?_, ?_, ?_, ?_⟩ <;>
        · intro h0
          simp only [mkKPI]
          rw [h0]
          exact yoy_zero_right _

/-- C3 witness: the two-element sequence whose prior period is all-zero. -/
theorem C3_witness :
    (zeroPeriod.revenue = 0 → (mkKPI base2024 zeroPeriod).revenue.delta = 0) ∧
    (grossMargin zeroPeriod = 0 → (mkKPI base2024 zeroPeriod).grossMargin.delta = 0) ∧
    (opMargin zeroPeriod = 0 → (mkKPI base2024 zeroPeriod).operatingMargin.delta = 0) ∧
    (netMargin zeroPeriod = 0 → (mkKPI base2024 zeroPeriod).netMargin.delta = 0) ∧
    (debtToEquity zeroPeriod = 0 → (mkKPI base2024 zeroPeriod).debtToEquity.delta = 0) ∧
    (assetTurnover zeroPeriod = 0 → (mkKPI base2024 zeroPeriod).assetTurnover.delta = 0) ∧
    (fcf zeroPeriod = 0 → (mkKPI base2024 zeroPeriod).fcf.delta = 0) :=
  C3_theorem [zeroPeriod, base2024] zeroPeriod (mkKPI base2024 zeroPeriod)
    (by simp) rfl rfl

/-- The empty string (as a named constant). -/
def emptyS : String := String.mk []

/-- ASCII fragment of the whitespace class trimmed by JS
`String.prototype.trim` (inputs using exotic Unicode whitespace are
outside the embedded domain). -/
def isWS (c : Char) : Bool :=
  c == ' ' || c == '\t' || c == '\n' || c == '\r' || c == '\x0b' || c == '\x0c'

/-- `s.trim()`. -/
def trimL (s : List Char) : List Char :=
  ((s.dropWhile isWS).reverse.dropWhile isWS).reverse

/-- `text.split(/\r?\n/)`: a lone CR is not a separator. -/
def splitLines : List Char → List (List Char)
  | [] => [[]]
  | '\r' :: '\n' :: rest => [] :: splitLines rest
  | '\n' :: rest => [] :: splitLines rest
  | c :: rest =>
      match splitLines rest with
      | [] => [[c]]
      | seg :: segs => (c :: seg) :: segs

/-- `s.split(sep)` for a single-character separator (used for the header
row and for the decimal point). -/
def splitOnChar (sep : Char) : List Char → List (List Char)
  | [] => [[]]
  | c :: rest =>
      if c == sep then [] :: splitOnChar sep rest
      else
        match splitOnChar sep rest with
        | [] => [[c]]
        | seg :: segs => (c :: seg) :: segs

/-- The per-line cell scan of `parseCSV` (source lines 147-161): every
double quote toggles `inQuotes` and is dropped; a comma outside quotes
ends the current cell. -/
def scanCells : List Char → List Char → Bool → List (List Char)
  | [], cur, _ => [cur]
  | ch :: rest, cur, inQuotes =>
      if ch == '"' then scanCells rest cur (!inQuotes)
      else if ch == ',' && !inQuotes then cur :: scanCells rest [] inQuotes
      else scanCells rest (cur ++ [ch]) inQuotes

/-- `.replace(/^"|"$/g, "")`: drop one leading and one trailing quote. -/
def stripQ (s : List Char) : List Char :=
  let s1 := match s with
    | '"' :: rest => rest
    | _ => s
  match s1.getLast? with
  | some '"' => s1.dropLast
  | _ => s1

/-- JS property assignment `obj[k] = v` on an insertion-ordered object
embedded as an association list: replace in place, else append. -/
def setKey (obj : List (String × String)) (k v : String) : List (String × String) :=
  if obj.any (fun p => p.1 == k) then
    obj.map (fun p => if p.1 == k then (k, v) else p)
  else obj ++ [(k, v)]

/-- `headers.forEach((h, idx) => obj[h] = (cells[idx] ?? "").trim().replace(/^"|"$/g, ""))`. -/
def buildRow (headers : List String) (cells : List (List Char)) : List (String × String) :=
  headers.enum.foldl
    (fun obj hi => setKey obj hi.2 (String.mk (stripQ (trimL ((cells.get? hi.1).getD [])))))
    []

/-- `parseCSV(text)` from the source: trim, split lines, header row from
a plain comma split, then one mapping per remaining line. -/
def parseCSV (text : String) : List (List (String × String)) :=
  let lines := splitLines (trimL text.data)
  match lines with
  | [] => []
  | l0 :: rest =>
      let headers := (splitOnChar ',' l0).map (fun h => String.mk (trimL h))
      rest.map (fun line => buildRow headers (scanCells line [] false))

/-- `s.toLowerCase()` (ASCII fragment, matching `Char.toLower`). -/
def lowerS (s : String) : String := String.mk (s.data.map Char.toLower)

/-- `mapKey(obj, keys, fallback)` from `coercePeriods`: first alias that
case-insensitively matches any key of the row wins; its (first) matching
key's value is returned, else the fallback. -/
def mapKey (obj : List (String × String)) (keys : List String) (fallback : String) : String :=
  match keys.find? (fun k => obj.any (fun p => lowerS p.1 == lowerS k)) with
  | some k =>
      match obj.find? (fun p => lowerS p.1 == lowerS k) with
      | some p => p.2
      | none => fallback
  | none => fallback

/-- `s.foldl (acc * 10 + digit) 0` — the value of a digit string. -/
def natOfDigits (s : List Char) : ℕ :=
  s.foldl (fun acc c => acc * 10 + (c.toNat - 48)) 0

/-- The unsigned decimal fragment of JS `Number(...)`: digits with an
optional fractional part. Strings outside this fragment (exponents, hex,
`Infinity`, garbage) are embedded as `none`, like `NaN`. -/
def parseUnsigned (s : List Char) : Option ℚ :=
  match splitOnChar '.' s with
  | [ip] =>
      if ip.isEmpty || !(ip.all Char.isDigit) then none
      else some ((natOfDigits ip : ℚ))
  | [ip, fp] =>
      if (ip.isEmpty && fp.isEmpty) || !(ip.all Char.isDigit) || !(fp.all Char.isDigit) then none
      else some ((natOfDigits ip : ℚ) + (natOfDigits fp : ℚ) / ((10 : ℚ) ^ fp.length))
  | _ => none

/-- JS `Number(v)` on the decimal fragment, with an optional sign. -/
def parseNum (s : List Char) : Option ℚ :=
  match s with
  | '-' :: t => (parseUnsigned t).map (fun q => -q)
  | '+' :: t => parseUnsigned t
  | _ => parseUnsigned s

/-- `num(v)` from `coercePeriods`: the empty string coerces to 0,
anything else goes through `Number(...)`. -/
def num (v : String) : Option ℚ :=
  if v == emptyS then some 0 else parseNum v.data

def aliasPeriod : List String := ["period", "date", "year", "quarter"]
def aliasRevenue : List String := ["revenue", "sales", "total_revenue"]
def aliasCogs : List String := ["cogs", "cost_of_goods_sold", "costs"]
def aliasOpex : List String := ["opex", "operating_expenses", "operating_expense"]
def aliasRnd : List String := ["r_and_d", "rnd", "research_development", "research_and_development"]
def aliasSga : List String := ["sga", "selling_general_admin", "selling_general_and_administrative"]
def aliasInterest : List String := ["interest_expense", "interest"]
def aliasTax : List String := ["tax_expense", "taxes"]
def aliasNetIncome : List String := ["net_income", "profit", "earnings"]
def aliasOcf : List String := ["operating_cash_flow", "ocf"]
def aliasIcf : List String := ["investing_cash_flow", "icf"]
def aliasFinCF : List String := ["financing_cash_flow", "fcf_financing"]
def aliasCapex : List String := ["capex", "capital_expenditure"]
def aliasAssets : List String := ["total_assets", "assets"]
def aliasLiabilities : List String := ["total_liabilities", "liabilities"]
def aliasEquity : List String := ["shareholders_equity", "equity"]

/-- The string `"0"`, the default `mapKey` fallback for numeric fields. -/
def zeroS : String := "0"

/-- One row of `coercePeriods(rows)`: every canonical field resolved via
`mapKey` and coerced with `num`. A `none` result marks a row whose numeric
coercion produces `NaN` in the source (outside the embedded domain). -/
def coercePeriod (r : List (String × String)) : Option Period := do
  let revenue ← num (mapKey r aliasRevenue zeroS)
  let cogs ← num (mapKey r aliasCogs zeroS)
  let opex ← num (mapKey r aliasOpex zeroS)
  let rnd ← num (mapKey r aliasRnd zeroS)
  let sgaV ← num (mapKey r aliasSga zeroS)
  let interestV ← num (mapKey r aliasInterest zeroS)
  let taxV ← num (mapKey r aliasTax zeroS)
  let ni ← num (mapKey r aliasNetIncome zeroS)
  let ocfV ← num (mapKey r aliasOcf zeroS)
  let icfV ← num (mapKey r aliasIcf zeroS)
  let finV ← num (mapKey r aliasFinCF zeroS)
  let capexV ← num (mapKey r aliasCapex zeroS)
  let assetsV ← num (mapKey r aliasAssets zeroS)
  let liabV ← num (mapKey r aliasLiabilities zeroS)
  let equityV ← num (mapKey r aliasEquity zeroS)
  pure { period := mapKey r aliasPeriod emptyS,
         revenue, cogs, opex, r_and_d := some rnd, sga := some sgaV,
         interest_expense := some interestV, tax_expense := some taxV,
         net_income := ni, operating_cash_flow := ocfV,
         investing_cash_flow := icfV, financing_cash_flow := finV,
         capex := some capexV, total_assets := assetsV,
         total_liabilities := liabV, shareholders_equity := equityV }

/-- `coercePeriods(rows)`: one `Period` per row, in order. -/
def coercePeriods (rows : List (List (String × String))) : Option (List Period) :=
  rows.mapM coercePeriod

/-- `small.startsWith`-style check: does the first list begin with the second? -/
def listStartsWith : List Char → List Char → Bool
  | _, [] => true
  | [], _ :: _ => false
  | a :: as, b :: bs => a == b && listStartsWith as bs

/-- JS `hay.includes(needle)`: substring containment. -/
def includes : List Char → List Char → Bool
  | [], needle => listStartsWith [] needle
  | c :: t, needle => listStartsWith (c :: t) needle || includes t needle

/-- JS `Array.prototype.findIndex`, with `none` for the `-1` miss. -/
def findIdxOpt {α : Type} (p : α → Bool) : List α → Option Nat
  | [] => none
  | a :: as => if p a then some 0 else (findIdxOpt p as).map (fun n => n + 1)

/-- The range filter of `FinanceVisualizer.data` (source lines 261-267)
for a non-null range: `findIndex` over label containment for each marker,
then `rows.slice(startIdx, endIdx + 1)`; if either `findIndex` misses,
the full input is returned. -/
def filterRange (rows : List Period) (startM endM : List Char) : List Period :=
  let startIdx := findIdxOpt (fun r => includes r.period.data startM) rows
  let endIdx := findIdxOpt (fun r => includes r.period.data endM) rows
  match startIdx, endIdx with
  | some si, some ei => (rows.drop si).take (ei + 1 - si)
  | _, _ => rows

lemma mem_trimL {c : Char} {l : List Char} (h : c ∈ trimL l) : c ∈ l := by
  unfold trimL at h
  rw [List.mem_reverse] at h
  have h1 := (List.dropWhile_sublist (l := (l.dropWhile isWS).reverse) (p := isWS)).subset h
  rw [List.mem_reverse] at h1
  exact (List.dropWhile_sublist (l := l) (p := isWS)).subset h1

lemma mem_stripQ {c : Char} {l : List Char} (h : c ∈ stripQ l) : c ∈ l := by
  unfold stripQ at h
  have step : ∀ (s1 : List Char), c ∈ (match s1.getLast? with
      | some '"' => s1.dropLast
      | _ => s1) → c ∈ s1 := by
    intro s1 hm
    split at hm
    · exact (List.dropLast_sublist s1).subset hm
    · exact hm
  split at h
  next rest => exact List.mem_cons_of_mem _ (step rest h)
  next => exact step l h

lemma scanCells_no_quote :
    ∀ (line cur : List Char) (inQ : Bool), ('"' ∉ cur) →
      ∀ cell ∈ scanCells line cur inQ, '"' ∉ cell := by
  intro line
  induction line with
  | nil =>
      intro cur inQ hcur cell hcell
      simp only [scanCells, List.mem_singleton] at hcell
      subst hcell; exact hcur
  | cons ch rest ih =>
      intro cur inQ hcur cell hcell
      simp only [scanCells] at hcell
      by_cases hq : (ch == '"') = true
      · rw [if_pos hq] at hcell
        exact ih cur (!inQ) hcur cell hcell
      · rw [if_neg hq] at hcell
        by_cases hcm : (ch == ',' && !inQ) = true
        · rw [if_pos hcm] at hcell
          rcases List.mem_cons.mp hcell with h1 | h1
          · subst h1; exact hcur
          · exact ih [] inQ (by simp) cell h1
        · rw [if_neg hcm] at hcell
          refine ih (cur ++ [ch]) inQ ?_ cell hcell
          intro hmem
          rcases List.mem_append.mp hmem with h1 | h1
          · exact hcur h1
          · rw [List.mem_singleton] at h1
            rw [h1] at hq
            simp at hq

lemma setKey_mem {obj : List (String × String)} {k v : String} {kv : String × String}
    (h : kv ∈ setKey obj k v) : kv ∈ obj ∨ kv = (k, v) := by
  unfold setKey at h
  split at h
  · rcases List.mem_map.mp h with ⟨p, hp, hpe⟩
    by_cases hk : (p.1 == k) = true
    · rw [if_pos hk] at hpe
      right; exact hpe.symm
    · rw [if_neg hk] at hpe
      left; rw [← hpe]; exact hp
  · rcases List.mem_append.mp h with h1 | h1
    · left; exact h1
    · right; rw [List.mem_singleton] at h1; exact h1

lemma foldl_setKey_inv (P : String → Prop) (v : ℕ × String → String) :
    ∀ (l : List (ℕ × String)) (obj : List (String × String)),
      (∀ kv ∈ obj, P kv.2) → (∀ hi ∈ l, P (v hi)) →
      ∀ kv ∈ l.foldl (fun o hi => setKey o hi.2 (v hi)) obj, P kv.2 := by
  intro l
  induction l with
  | nil => intro obj hobj _ kv hkv; exact hobj kv hkv
  | cons a t ih =>
      intro obj hobj hl kv hkv
      simp only [List.foldl_cons] at hkv
      refine ih (setKey obj a.2 (v a)) ?_ ?_ kv hkv
      · intro kv2 hkv2
        rcases setKey_mem hkv2 with h1 | h1
        · exact hobj kv2 h1
        · rw [h1]; exact hl a (List.mem_cons_self a t)
      · intro hi hhi; exact hl hi (List.mem_cons_of_mem a hhi)

lemma buildRow_no_quote (headers : List String) (cells : List (List Char))
    (hc : ∀ c ∈ cells, '"' ∉ c) :
    ∀ kv ∈ buildRow headers cells, '"' ∉ kv.2.data := by
  intro kv hkv
  refine foldl_setKey_inv (fun s => '"' ∉ s.data) _ headers.enum [] (by simp) ?_ kv hkv
  intro hi _
  intro hq
  have hq2 : '"' ∈ stripQ (trimL ((cells.get? hi.1).getD [])) := hq
  have hq3 := mem_trimL (mem_stripQ hq2)
  cases hg : cells.get? hi.1 with
  | none => rw [hg] at hq3; simp at hq3
  | some raw =>
      rw [hg] at hq3
      exact hc raw (List.get?_mem hg) hq3

/-- The C5 counterexample input: one header, one row whose cell has an
embedded (interior) double quote. -/
def c5Input : String := "h\na\"b"

/-- C5 fails as stated: on the cell `a"b` the parser outputs `ab` — the
interior quote is removed by the quote-toggling scan, not retained as a
token-level leading/trailing strip would leave it. -/
theorem C5_counterexample :
    parseCSV c5Input = [[("h", "ab")]] ∧ parseCSV c5Input ≠ [[("h", "a\"b")]] := by
  constructor
  · decide
  · decide

/-- C5 (amended): the parser's quote handling is not a token-level strip;
every double-quote character is consumed by the `inQuotes` toggle during
the cell scan, so no cell value in any parsed row contains a double quote
(interior quotes are removed and `""` disappears entirely rather than
unescaping to a single quote). -/
theorem C5_theorem (text : String) (row : List (String × String)) (kv : String × String)
    (hrow : row ∈ parseCSV text) (hkv : kv ∈ row) :
    '"' ∉ kv.2.data := by
  unfold parseCSV at hrow
  rcases hlines : splitLines (trimL text.data) with _ | ⟨l0, rest⟩
  · rw [hlines] at hrow; simp at hrow
  · rw [hlines] at hrow
    simp only [List.mem_map] at hrow
    rcases hrow with ⟨line, _, hline⟩
    subst hline
    exact buildRow_no_quote _ _ (scanCells_no_quote line [] false (by simp)) kv hkv

/-- The C5 witness input: two headers, a quoted first cell. -/
def c5wText : String := "a,b\n\"x\",y"

/-- C5 witness: the amended theorem at a concrete quoted-cell input. -/
theorem C5_witness : '"' ∉ (("a", "x") : String × String).2.data :=
  C5_theorem c5wText [("a", "x"), ("b", "y")] ("a", "x") (by decide) (by decide)

lemma findIdxOpt_eq_none {α : Type} (p : α → Bool) (l : List α)
    (h : ∀ a ∈ l, p a = false) : findIdxOpt p l = none := by
  induction l with
  | nil => rfl
  | cons a t ih =>
      simp only [findIdxOpt]
      rw [h a (List.mem_cons_self a t),
        ih (fun x hx => h x (List.mem_cons_of_mem a hx))]
      rfl

/-- C7: if either range marker is contained in no period label, the range
filter returns the full input sequence unchanged. -/
theorem C7_theorem (rows : List Period) (startM endM : List Char)
    (h : (∀ r ∈ rows, includes r.period.data startM = false) ∨
         (∀ r ∈ rows, includes r.period.data endM = false)) :
    filterRange rows startM endM = rows := by
  unfold filterRange
  rcases h with h | h
  · rw [findIdxOpt_eq_none _ _ h]
  · rw [findIdxOpt_eq_none _ _ h]
    cases findIdxOpt (fun r => includes r.period.data startM) rows <;> rfl

/-- A marker matching no label of `[zeroPeriod]` (whose label is `Z`). -/
def qMarker : List Char := ['Q']

/-- C7 witness: a marker absent from every label leaves the sequence as is. -/
theorem C7_witness : filterRange [zeroPeriod] qMarker qMarker = [zeroPeriod] :=
  C7_theorem [zeroPeriod] qMarker qMarker (Or.inl (by decide))

/-- The concrete CSV input of claim C8. -/
def csvC8 : String := "period,revenue,cogs,opex,net_income,operating_cash_flow,investing_cash_flow,financing_cash_flow,total_assets,total_liabilities,shareholders_equity\n2020,100,40,20,25,30,-10,-5,200,90,110"

/-- The single `Period` that C8 says the concrete CSV normalizes to. -/
def periodC8 : Period :=
  { period := "2020", revenue := 100, cogs := 40, opex := 20,
    r_and_d := some 0, sga := some 0, interest_expense := some 0, tax_expense := some 0,
    net_income := 25, operating_cash_flow := 30, investing_cash_flow := -10,
    financing_cash_flow := -5, capex := some 0, total_assets := 200,
    total_liabilities := 90, shareholders_equity := 110 }

/-- C8: the concrete CSV input normalizes (`coercePeriods ∘ parseCSV`) to
exactly one `Period` with period `2020`, revenue 100, cogs 40, and every
unspecified optional numeric field equal to 0. -/
theorem C8_theorem : coercePeriods (parseCSV csvC8) = some [periodC8] := by decide

/-- The two periods of the C10 scenario. -/
def p2020 : Period := { zeroPeriod with period := "2020" }
def p2021 : Period := { zeroPeriod with period := "2021" }
def rows10 : List Period := [p2020, p2021]

/-- C10: with both markers matching some label — the start marker first
matching at index 1, the end marker at index 0 — the slice from start to
end is empty: the filter strictly truncates, here to the empty sequence. -/
theorem C10_theorem :
    findIdxOpt (fun r => includes r.period.data ['2', '0', '2', '1']) rows10 = some 1 ∧
    findIdxOpt (fun r => includes r.period.data ['2', '0', '2', '0']) rows10 = some 0 ∧
    filterRange rows10 ['2', '0', '2', '1'] ['2', '0', '2', '0'] = [] ∧
    rows10 ≠ [] := by
  refine ⟨rfl, rfl, rfl, ?_⟩
  intro h
  simp [rows10] at h
